import Mathlib

/-!
# A shallow embedding of the SudoSharp interpreter

This file embeds the interpreter of `sudosharp.py` (class `SudoSharpInterpreter`)
in Lean and proves properties of it.  The embedding follows the source
line by line:

* Python's dynamically typed values are the tagged union `Value`
  (integer, float, string, boolean, built-in function object).
* Python `float`s are idealized as exact rationals, carried as an
  unreduced numerator/denominator pair `PyFloat` (every float the
  interpreter manufactures has a positive denominator).  IEEE rounding,
  overflow and shortest-round-trip `repr` are not modelled; the decimal
  literals and small integer arithmetic exercised here are exact either way.
* `self.variables` is an insertion-ordered association list with
  Python-dict update semantics (`envSet` overwrites in place, else appends).
* Statefulness is explicit: every handler maps a `State` to a `State`,
  and printing appends to `State.output` (one entry per `print(...)` call).
* Fallible code returns `Except Fault State`: the two uncaught Python
  exceptions reachable from `execute_line` are modelled as `Fault`s
  (a `TypeError` from `int()` applied to a built-in function object in
  `execute_loop`, and `EOFError` from `input()` on exhausted stdin in
  `execute_ask`).  Everything else the source handles locally.
* Arithmetic overflow at the int/float boundary is not modelled: the host
  raises an uncaught overflow error when an integer of magnitude at least
  `2 ^ 1024` is converted to a float (mixed `set` arithmetic, and int/int
  true division whose quotient exceeds the float range), and `float(...)`
  of a decimal literal beyond that range yields `inf`.  Floats here are
  exact rationals and those operations are total, so no theorem below
  asserts that `set` lines cannot fault, and the loop-bound theorem
  (claim C7) carries an explicit float-range hypothesis.
* String helpers (`strip`, `lower`, `split`, scanning) are re-implemented
  structurally over `List Char` so that all definitions evaluate inside the
  kernel; they model the ASCII behaviour of the Python originals (the
  interpreter's keywords and programs considered here are ASCII).
  Python's acceptance of non-ASCII digits in `int()` is not modelled.
-/

namespace SudoSharp

/-! ## Character and string utilities -/

/-- ASCII lowercasing of one character, as `str.lower()` acts on ASCII. -/
def lowerChar (c : Char) : Char :=
  if 65 ≤ c.toNat ∧ c.toNat ≤ 90 then Char.ofNat (c.toNat + 32) else c

/-- `str.lower()` (ASCII fragment). -/
def lower (str0 : String) : String := String.mk (str0.data.map lowerChar)

/-- `str.strip()` on a character list: drop leading and trailing whitespace. -/
def pyStripChars (cs : List Char) : List Char :=
  ((cs.dropWhile Char.isWhitespace).reverse.dropWhile Char.isWhitespace).reverse

/-- `str.strip()`. -/
def pyStrip (str0 : String) : String := String.mk (pyStripChars str0.data)

/-- `str.startswith(pat)` on character lists. -/
def startsWithC (cs pat : List Char) : Bool := pat.isPrefixOf cs

/-- `str.endswith(pat)` on character lists. -/
def endsWithC (cs pat : List Char) : Bool := pat.reverse.isPrefixOf cs.reverse

/-- `str.find(pat)`: index of the first occurrence of `pat`, if any. -/
def findSub (cs pat : List Char) : Option Nat :=
  match cs with
  | [] => if pat.isEmpty then some 0 else none
  | c :: rest =>
      if pat.isPrefixOf (c :: rest) then some 0
      else (findSub rest pat).map (· + 1)

/-- `text.split('\n')` (accumulator is reversed). -/
def splitLinesGo : List Char → List Char → List String
  | [], acc => [String.mk acc.reverse]
  | c :: rest, acc =>
      if c = '\n' then String.mk acc.reverse :: splitLinesGo rest []
      else splitLinesGo rest (c :: acc)

/-- `text.split('\n')`. -/
def splitLines (text : String) : List String := splitLinesGo text.data []

/-- Decimal digits of a natural number; `fuel` bounds the recursion and any
`fuel > n` is enough. -/
def natDigitsAux : Nat → Nat → List Char → List Char
  | 0, _, acc => acc
  | fuel + 1, n, acc =>
      if n < 10 then Char.ofNat (48 + n) :: acc
      else natDigitsAux fuel (n / 10) (Char.ofNat (48 + n % 10) :: acc)

/-- `str(n)` for a natural number. -/
def natStr (n : Nat) : String := String.mk (natDigitsAux (n + 1) n [])

/-- `str(n)` for a Python int. -/
def intStr (n : Int) : String :=
  if n < 0 then "-" ++ natStr n.natAbs else natStr n.natAbs

/-! ## Python floats, idealized -/

/-- A Python float, idealized as the exact rational `num / den`.
All floats the interpreter builds keep `den > 0`. -/
structure PyFloat where
  num : Int
  den : Int
deriving DecidableEq, Repr

/-- The rational value a `PyFloat` stands for. -/
def PyFloat.toRat (a : PyFloat) : ℚ := a.num / a.den

/-- Exact float addition (host `+`, idealized). -/
def PyFloat.add (a b : PyFloat) : PyFloat :=
  ⟨a.num * b.den + b.num * a.den, a.den * b.den⟩

/-- Exact float subtraction. -/
def PyFloat.sub (a b : PyFloat) : PyFloat :=
  ⟨a.num * b.den - b.num * a.den, a.den * b.den⟩

/-- Exact float multiplication. -/
def PyFloat.mul (a b : PyFloat) : PyFloat :=
  ⟨a.num * b.num, a.den * b.den⟩

/-- Exact float division (divisor is checked nonzero before this is reached);
the sign swap keeps the denominator positive. -/
def PyFloat.div (a b : PyFloat) : PyFloat :=
  if b.num < 0 then ⟨-(a.num * b.den), a.den * -b.num⟩
  else ⟨a.num * b.den, a.den * b.num⟩

/-! ## Values -/

/-- The value model: Python int, float, str, bool, and the opaque built-in
function objects stored by `init_builtins` / `execute_import`. -/
inductive Value where
  | int (n : Int)
  | float (f : PyFloat)
  | str (s : String)
  | bool (b : Bool)
  | builtin (name : String)
deriving DecidableEq, Repr

/-- Decimal rendering of an idealized float; exact whenever the denominator
divides `10 ^ 18` (which covers every float literal a program can write and
its sums/products).  The `repr` of other hosts' floats is idealized as an
exact fraction. -/
def floatRepr (f : PyFloat) : String :=
  let sign := if f.num * f.den < 0 then "-" else ""
  let n := f.num.natAbs
  let d := f.den.natAbs
  if d = 0 then "inf"
  else if n % d = 0 then sign ++ natStr (n / d) ++ ".0"
  else if (n * 10 ^ 18) % d = 0 then
    let scaled := n * 10 ^ 18 / d
    let ip := scaled / 10 ^ 18
    let fp := scaled % 10 ^ 18
    let fpDigits := natDigitsAux 19 fp []
    let padded := List.replicate (18 - fpDigits.length) '0' ++ fpDigits
    let trimmed := (padded.reverse.dropWhile (· = '0')).reverse
    sign ++ natStr ip ++ "." ++ String.mk trimmed
  else sign ++ natStr n ++ "/" ++ natStr d

/-- `str(value)`. -/
def valueToString : Value → String
  | .int n => intStr n
  | .float f => floatRepr f
  | .str s => s
  | .bool b => if b then "True" else "False"
  | .builtin n => "<built-in function " ++ n ++ ">"

/-! ## The environment (`self.variables`) -/

/-- Python dict read: first (unique) binding of the key. -/
def envGet (env : List (String × Value)) (k : String) : Option Value :=
  match env with
  | [] => none
  | (k0, v) :: rest => if k0 = k then some v else envGet rest k

/-- Python dict write: overwrite in place, else append (insertion order). -/
def envSet (env : List (String × Value)) (k : String) (v : Value) :
    List (String × Value) :=
  match env with
  | [] => [(k, v)]
  | (k0, v0) :: rest =>
      if k0 = k then (k, v) :: rest else (k0, v0) :: envSet rest k v

/-! ## Numeric literal parsing (`int(...)`, `float(...)`) -/

def digitVal (c : Char) : Nat := c.toNat - 48

/-- Digits of a Python int literal after the first digit: digits with single
underscores strictly between digits (PEP 515). -/
def digitsCore : Nat → List Char → Option Nat
  | acc, [] => some acc
  | acc, '_' :: c :: rest =>
      if c.isDigit then digitsCore (acc * 10 + digitVal c) rest else none
  | _, ['_'] => none
  | acc, c :: rest =>
      if c.isDigit then digitsCore (acc * 10 + digitVal c) rest else none

/-- A nonempty ASCII digit group (underscore grouping allowed). -/
def digitsToNat (cs : List Char) : Option Nat :=
  match cs with
  | [] => none
  | c :: rest => if c.isDigit then digitsCore (digitVal c) rest else none

/-- `int(text)` on a string: strip, optional sign, digit group. -/
def parsePyInt (str0 : String) : Option Int :=
  match pyStripChars str0.data with
  | '+' :: ds => (digitsToNat ds).map (fun n => (n : Int))
  | '-' :: ds => (digitsToNat ds).map (fun n => -(n : Int))
  | ds => (digitsToNat ds).map (fun n => (n : Int))

def isDigitOrUnderscore (c : Char) : Bool := c.isDigit || c = '_'

/-- The optional `e`/`E` exponent tail of a float literal. -/
def parseExpPart : List Char → Option Int
  | [] => some 0
  | c :: rest =>
      if c = 'e' ∨ c = 'E' then
        match rest with
        | '+' :: ds => (digitsToNat ds).map (fun n => (n : Int))
        | '-' :: ds => (digitsToNat ds).map (fun n => -(n : Int))
        | ds => (digitsToNat ds).map (fun n => (n : Int))
      else none

/-- `sgn * mant / den`, scaled by `10 ^ e`. -/
def applyExp (sgn : Int) (mant : Nat) (den : Nat) (e : Int) : PyFloat :=
  if 0 ≤ e then ⟨sgn * mant * 10 ^ e.toNat, den⟩
  else ⟨sgn * mant, den * 10 ^ (-e).toNat⟩

/-- `float(text)` after the sign: `digits [. digits] [exp]` with at least one
digit in the mantissa. -/
def parseFloatBody (sgn : Int) (cs : List Char) : Option PyFloat :=
  let ipChars := cs.takeWhile isDigitOrUnderscore
  match cs.dropWhile isDigitOrUnderscore with
  | '.' :: rest2 =>
      let fpChars := rest2.takeWhile isDigitOrUnderscore
      let rest3 := rest2.dropWhile isDigitOrUnderscore
      if ipChars.isEmpty ∧ fpChars.isEmpty then none
      else
        match (if ipChars.isEmpty then some 0 else digitsToNat ipChars),
            (if fpChars.isEmpty then some 0 else digitsToNat fpChars),
            parseExpPart rest3 with
        | some ipVal, some fpVal, some expVal =>
            let fd := (fpChars.filter Char.isDigit).length
            some (applyExp sgn (ipVal * 10 ^ fd + fpVal) (10 ^ fd) expVal)
        | _, _, _ => none
  | rest1 =>
      if ipChars.isEmpty then none
      else
        match digitsToNat ipChars, parseExpPart rest1 with
        | some ipVal, some expVal => some (applyExp sgn ipVal 1 expVal)
        | _, _ => none

/-- `float(text)` on a string: strip, optional sign, mantissa and exponent.
A literal beyond the host float range (magnitude at least `2 ^ 1024`, e.g.
`1.0e400`) yields `inf` in Python; here it parses to an exact huge rational,
which the float-range hypothesis of the loop-bound theorem (claim C7)
excludes. -/
def parsePyFloat (str0 : String) : Option PyFloat :=
  match pyStripChars str0.data with
  | '+' :: r => parseFloatBody 1 r
  | '-' :: r => parseFloatBody (-1) r
  | r => parseFloatBody 1 r

/-! ## String interpolation (`process_string_interpolation`) -/

/-- The identifier class of the pattern `\$([a-zA-Z0-9_]+)\$`. -/
def wordChar (c : Char) : Bool := c.isAlphanum || c = '_'

/-- Left-to-right scan of `re.sub(r'\$([a-zA-Z0-9_]+)\$', replace_var, text)`.
`none` is ordinary scanning; `some acc` means a `$` was seen and `acc` holds
the (reversed) identifier characters read since.  A completed `$name$` is
replaced by `str(variables[name])` when bound and kept verbatim when not;
either way scanning resumes after the closing `$` (matches do not overlap and
replacements are not rescanned, exactly as `re.sub` behaves). -/
def interpGo (env : List (String × Value)) : List Char → Option (List Char) → List Char
  | [], none => []
  | [], some acc => '$' :: acc.reverse
  | c :: rest, none =>
      if c = '$' then interpGo env rest (some [])
      else c :: interpGo env rest none
  | c :: rest, some acc =>
      if c = '$' then
        if acc.isEmpty then '$' :: interpGo env rest (some [])
        else
          match envGet env (String.mk acc.reverse) with
          | some v => (valueToString v).data ++ interpGo env rest none
          | none => ('$' :: acc.reverse ++ ['$']) ++ interpGo env rest none
      else if wordChar c then interpGo env rest (some (c :: acc))
      else ('$' :: acc.reverse) ++ c :: interpGo env rest none

/-- `process_string_interpolation(self, text)`. -/
def process_string_interpolation (env : List (String × Value)) (text : String) :
    String :=
  String.mk (interpGo env text.data none)

/-! ## Expression evaluation (`evaluate_expression`) -/

/-- The boolean-literal and fallback steps of `evaluate_expression`. -/
def evalBoolOrStr (expr : String) : Value :=
  if lower expr = "yes" ∨ lower expr = "true" then .bool true
  else if lower expr = "no" ∨ lower expr = "false" then .bool false
  else .str expr

/-- `evaluate_expression(self, expr)`: interpolate, then variable lookup,
quoted string, numeric literal (`float` when a `.` is present, else `int`),
boolean word, fallback to the text itself. -/
def evaluate_expression (env : List (String × Value)) (expr0 : String) : Value :=
  let expr := if expr0.data.contains '$'
    then process_string_interpolation env expr0 else expr0
  match envGet env expr with
  | some v => v
  | none =>
      if startsWithC expr.data ['"'] ∧ endsWithC expr.data ['"'] then
        .str (String.mk ((expr.data.drop 1).dropLast))
      else if expr.data.contains '.' then
        match parsePyFloat expr with
        | some f => .float f
        | none => evalBoolOrStr expr
      else
        match parsePyInt expr with
        | some n => .int n
        | none => evalBoolOrStr expr

/-! ## Tokenizer (`tokenize`) -/

/-- The scanning state of `tokenize`'s index loop: between tokens, inside an
unquoted token, or inside a quoted token (accumulators reversed). -/
inductive ScanMode where
  | idle
  | word (acc : List Char)
  | quoted (acc : List Char)

/-- The general (non-`print`, non-comment) scan: a `"` opens a token running
through the next `"` inclusive (or the end of the line when unterminated);
any other run of non-whitespace characters is one token.  A `"` occurring
inside an unquoted token is ordinary (the source only quote-handles a `"`
that starts a token). -/
def scanTokens : List Char → ScanMode → List String
  | [], .idle => []
  | [], .word acc => [String.mk acc.reverse]
  | [], .quoted acc => [String.mk acc.reverse]
  | c :: rest, .idle =>
      if c = '"' then scanTokens rest (.quoted [c])
      else if c.isWhitespace then scanTokens rest .idle
      else scanTokens rest (.word [c])
  | c :: rest, .word acc =>
      if c.isWhitespace then String.mk acc.reverse :: scanTokens rest .idle
      else scanTokens rest (.word (c :: acc))
  | c :: rest, .quoted acc =>
      if c = '"' then String.mk (c :: acc).reverse :: scanTokens rest .idle
      else scanTokens rest (.quoted (c :: acc))

/-- `tokenize(self, line)`: comment lines (leading `$`, not `$print`) give no
tokens; a `print` line gives `["print"]` plus the rest of the line verbatim
(stripped) as one token; anything else is scanned token by token. -/
def tokenize (line : String) : List String :=
  if startsWithC (pyStrip line).data ['$'] ∧
      ¬ startsWithC (lower (pyStrip line)).data "$print".data then []
  else if startsWithC (lower (pyStrip line)).data "print".data then
    let idx := (findSub (lower line).data "print".data).getD 0
    let arg := pyStrip (String.mk (line.data.drop (idx + 5)))
    if arg = "" then ["print"] else ["print", arg]
  else scanTokens line.data .idle

/-! ## Interpreter state -/

/-- A loop frame pushed by `execute_loop`: `start` is the `loop` line's own
index (the key `"start"`), `iterator` the current counter, `endBound` the
inclusive end (the key `"end"`, renamed because `end` is reserved). -/
structure LoopFrame where
  start : Nat
  iterator : Int
  endBound : Int
deriving DecidableEq, Repr

/-- The whole interpreter state: the fields of `SudoSharpInterpreter` plus the
explicit stdout transcript (`output`, one entry per `print(...)` call) and the
remaining stdin lines (`inputs`).  The loop stack's top is the head. -/
structure State where
  vars : List (String × Value)
  running : Bool
  program_lines : List String
  current_line : Nat
  loop_stack : List LoopFrame
  output : List String
  inputs : List String
deriving DecidableEq, Repr

/-- The uncaught Python exceptions reachable from `execute_line`. -/
inductive Fault where
  | intOfBuiltin
  | endOfInput
deriving DecidableEq, Repr

/-- Append one printed line. -/
def emit (s : State) (msg : String) : State :=
  { s with output := s.output ++ [msg] }

/-- `init_builtins(self)`: the pre-seeded environment.  Built-in function
objects carry the name of the Python function bound (note `sort ↦ sorted`);
`pi` and `e` idealize the IEEE constants by their 16-significant-digit
decimal values. -/
def init_builtins : List (String × Value) :=
  [("abs", .builtin "abs"), ("max", .builtin "max"), ("min", .builtin "min"),
   ("sum", .builtin "sum"), ("round", .builtin "round"), ("pow", .builtin "pow"),
   ("pi", .float ⟨3141592653589793, 1000000000000000⟩),
   ("e", .float ⟨2718281828459045, 1000000000000000⟩),
   ("int", .builtin "int"), ("float", .builtin "float"), ("str", .builtin "str"),
   ("len", .builtin "len"), ("sort", .builtin "sorted")]

/-! ## Arithmetic on values (host semantics of `+ - * /` after the
`isinstance(·, (int, float))` guard) -/

/-- `isinstance(v, (int, float))`.  Crucially, a Python `bool` IS an `int`
(`True + 1 == 2`), so booleans pass this guard. -/
def isNumericPy : Value → Bool
  | .int _ => true
  | .float _ => true
  | .bool _ => true
  | _ => false

/-- A float operand (forces float promotion). -/
def isFloatV : Value → Bool
  | .float _ => true
  | _ => false

/-- The integer a non-float numeric operand contributes (`True`/`False` are
`1`/`0`); `0` for the unreachable non-numeric cases behind the guard. -/
def intCoerce : Value → Int
  | .int n => n
  | .bool b => if b then 1 else 0
  | _ => 0

/-- A numeric operand as a float.  Total here: the host raises an uncaught
overflow error when converting an integer of magnitude at least `2 ^ 1024`,
a path this model idealizes away (no theorem relies on coercing such
values). -/
def floatCoerce : Value → PyFloat
  | .float f => f
  | .int n => ⟨n, 1⟩
  | .bool b => ⟨if b then 1 else 0, 1⟩
  | _ => ⟨0, 1⟩

/-- `left + right` on guarded numerics: float if either side is. -/
def valueAdd (l r : Value) : Value :=
  if isFloatV l || isFloatV r then .float ((floatCoerce l).add (floatCoerce r))
  else .int (intCoerce l + intCoerce r)

/-- `left - right` on guarded numerics. -/
def valueSub (l r : Value) : Value :=
  if isFloatV l || isFloatV r then .float ((floatCoerce l).sub (floatCoerce r))
  else .int (intCoerce l - intCoerce r)

/-- `left * right` on guarded numerics. -/
def valueMul (l r : Value) : Value :=
  if isFloatV l || isFloatV r then .float ((floatCoerce l).mul (floatCoerce r))
  else .int (intCoerce l * intCoerce r)

/-- `left / right`: Python true division always yields a float.  Exact and
total here: the host raises an uncaught overflow error when the true
quotient of two huge integers exceeds the float range, a path this model
idealizes away. -/
def valueDiv (l r : Value) : Value :=
  .float ((floatCoerce l).div (floatCoerce r))

/-- `right == 0` for the division-by-zero check (`0`, `0.0` and `False` all
compare equal to zero in Python). -/
def isZeroPy : Value → Bool
  | .int n => n = 0
  | .float f => f.num = 0
  | .bool b => !b
  | _ => false

/-! ## Command handlers -/

/-- The space-joined, `rstrip`ped multi-token print payload. -/
def joinEval (env : List (String × Value)) : List String → String
  | [] => ""
  | t :: rest => valueToString (evaluate_expression env t) ++ " " ++ joinEval env rest

/-- `str.rstrip()`. -/
def rstrip (str0 : String) : String :=
  String.mk (str0.data.reverse.dropWhile Char.isWhitespace).reverse

/-- `execute_print(self, tokens)`. -/
def execute_print (s : State) (tokens : List String) : State :=
  if tokens.length < 2 then emit s ""
  else if (tokens.getD 1 "").data.contains '$' then
    emit s (process_string_interpolation s.vars (tokens.getD 1 ""))
  else if tokens.length = 2 ∧ startsWithC (tokens.getD 1 "").data ['"'] ∧
      endsWithC (tokens.getD 1 "").data ['"'] then
    emit s (String.mk (((tokens.getD 1 "").data.drop 1).dropLast))
  else
    emit s (rstrip (joinEval s.vars (tokens.drop 1)))

/-- `execute_set(self, tokens)`.  Note the silent fall-through when the value
part has exactly two tokens: neither branch fires and the handler returns
with no assignment and no message. -/
def execute_set (s : State) (tokens : List String) : State :=
  if tokens.length < 4 then
    emit s "Error: Invalid set command format. Use 'set variable to value'"
  else if lower (tokens.getD 2 "") ≠ "to" then
    emit s "Error: Invalid set command format. Use 'set variable to value'"
  else
    if (tokens.drop 3).length = 1 then
      let v := evaluate_expression s.vars (tokens.getD 3 "")
      { s with vars := envSet s.vars (tokens.getD 1 "") v }
    else if 3 ≤ (tokens.drop 3).length then
      let left := evaluate_expression s.vars (tokens.getD 3 "")
      if lower (tokens.getD 4 "") = "divided" ∧ lower (tokens.getD 5 "") = "by" then
        if (tokens.drop 3).length < 4 then
          emit s "Error: Invalid division format. Use 'divided by value'"
        else
          let right := evaluate_expression s.vars (tokens.getD 6 "")
          if ¬ (isNumericPy left ∧ isNumericPy right) then
            emit s ("Error: Cannot perform division on non-numeric values: " ++
              valueToString left ++ " and " ++ valueToString right)
          else if isZeroPy right then
            emit s "Error: Division by zero"
          else
            { s with vars := envSet s.vars (tokens.getD 1 "") (valueDiv left right) }
      else
        let right := evaluate_expression s.vars (tokens.getD 5 "")
        if ¬ (isNumericPy left ∧ isNumericPy right) then
          emit s ("Error: Cannot perform math operations on non-numeric values: " ++
            valueToString left ++ " and " ++ valueToString right)
        else if lower (tokens.getD 4 "") = "plus" then
          { s with vars := envSet s.vars (tokens.getD 1 "") (valueAdd left right) }
        else if lower (tokens.getD 4 "") = "minus" then
          { s with vars := envSet s.vars (tokens.getD 1 "") (valueSub left right) }
        else if lower (tokens.getD 4 "") = "times" then
          { s with vars := envSet s.vars (tokens.getD 1 "") (valueMul left right) }
        else
          emit s ("Error: Unknown operation '" ++ lower (tokens.getD 4 "") ++ "'")
    else s

/-- `execute_ask(self, tokens)`: one line of stdin, parsed like a literal
(`float` when it contains `.`, else `int`, else kept as a string).  `input()`
on exhausted stdin raises `EOFError`, which nothing below `run_interactive`
catches. -/
def execute_ask (s : State) (tokens : List String) : Except Fault State :=
  if tokens.length < 3 ∨ lower (tokens.getD 1 "") ≠ "for" then
    .ok (emit s "Error: Invalid ask command format. Use 'ask for variable'")
  else
    match s.inputs with
    | [] => .error .endOfInput
    | userInput :: rest =>
        let value :=
          if userInput.data.contains '.' then
            match parsePyFloat userInput with
            | some f => Value.float f
            | none => Value.str userInput
          else
            match parsePyInt userInput with
            | some n => Value.int n
            | none => Value.str userInput
        .ok { s with inputs := rest
                     vars := envSet s.vars (tokens.getD 2 "") value }

/-- `int(v)` on an evaluated value: exact on ints and bools, truncation toward
zero on floats, literal parse on strings (failure = `ValueError`, which
`execute_loop` catches), and a `TypeError` — uncaught — on function objects.
The host's `int()` additionally raises an uncaught overflow error on `inf`
and a caught value error on `nan`; this model has no inf/nan floats, so
float-bound claims are stated with a range guard (claim C7). -/
inductive PyIntResult where
  | ok (n : Int)
  | valueError
  | typeFault
deriving DecidableEq, Repr

def pyIntOf : Value → PyIntResult
  | .int n => .ok n
  | .float f => .ok (Int.tdiv f.num f.den)
  | .bool b => .ok (if b then 1 else 0)
  | .str s =>
      match parsePyInt s with
      | some n => .ok n
      | none => .valueError
  | .builtin _ => .typeFault

/-- `execute_loop(self, tokens)`: checks the shape, converts both bounds with
`int(...)`, pushes a frame whose return index is the current line, and seeds
the global `i` with the start value.  Only `ValueError` is caught. -/
def execute_loop (s : State) (tokens : List String) : Except Fault State :=
  if tokens.length < 5 then
    .ok (emit s "Error: Invalid loop command format. Use 'loop through start and end'")
  else if lower (tokens.getD 1 "") ≠ "through" ∨ lower (tokens.getD 3 "") ≠ "and" then
    .ok (emit s "Error: Invalid loop command format. Use 'loop through start and end'")
  else
    match pyIntOf (evaluate_expression s.vars (tokens.getD 2 "")) with
    | .typeFault => .error .intOfBuiltin
    | .valueError =>
        .ok (emit s ("Error: Loop bounds must be integers, got " ++
          tokens.getD 2 "" ++ " and " ++ tokens.getD 4 ""))
    | .ok startV =>
        match pyIntOf (evaluate_expression s.vars (tokens.getD 4 "")) with
        | .typeFault => .error .intOfBuiltin
        | .valueError =>
            .ok (emit s ("Error: Loop bounds must be integers, got " ++
              tokens.getD 2 "" ++ " and " ++ tokens.getD 4 ""))
        | .ok endV =>
            .ok { s with
              loop_stack := ⟨s.current_line, startV, endV⟩ :: s.loop_stack,
              vars := envSet s.vars "i" (.int startV) }

/-- `execute_end_loop(self)`: increment the top frame's iterator, mirror it
into `i`, then either jump the cursor back to the frame's return index or pop
the frame. -/
def execute_end_loop (s : State) : State :=
  match s.loop_stack with
  | [] => emit s "Error: 'end loop' without matching 'loop'"
  | f :: rest =>
      let it := f.iterator + 1
      if it ≤ f.endBound then
        { s with loop_stack := { f with iterator := it } :: rest
                 vars := envSet s.vars "i" (.int it)
                 current_line := f.start }
      else
        { s with loop_stack := rest
                 vars := envSet s.vars "i" (.int it) }

/-- `execute_import(self, tokens)`. -/
def execute_import (s : State) (tokens : List String) : State :=
  if tokens.length < 2 then
    emit s "Error: Invalid import command. Use 'import module'"
  else if lower (tokens.getD 1 "") = "math" then
    let env1 := envSet (envSet (envSet s.vars "sin" (.builtin "sin")) "cos" (.builtin "cos")) "tan" (.builtin "tan")
    let env2 := envSet (envSet (envSet (envSet env1 "sqrt" (.builtin "sqrt")) "log" (.builtin "log")) "floor" (.builtin "floor")) "ceil" (.builtin "ceil")
    emit { s with vars := env2 } "Imported math module"
  else
    emit s ("Error: Module '" ++ lower (tokens.getD 1 "") ++ "' not found")

/-- `show_help(self)`: the static usage text, one entry per `print(...)`. -/
def show_help (s : State) : State :=
  { s with output := s.output ++
    ["\nSudoSharp Language Help",
     "======================",
     "Commands:",
     "  print [text/$variable$/etc] - Output text to console. Use $var$ for variable interpolation.",
     "  set variable to value - Assign a value to a variable",
     "  ask for variable - Get user input and store it in a variable",
     "  loop through start and end - Loop from start to end values",
     "  end loop - End a loop block",
     "  import module - Import a module (currently only 'math' is supported)",
     "  exit/quit - Exit the program",
     "  help - Show this help message",
     "\nMath Operations:",
     "  set result to value1 plus value2",
     "  set result to value1 minus value2",
     "  set result to value1 times value2",
     "  set result to value1 divided by value2",
     "\nBuilt-in Functions:",
     "  abs, max, min, sum, round, pow, int, float, str, len, sort",
     "\nComments:",
     "  $ This is a comment",
     "  # This is also a comment"] }

/-- `execute_line(self, line)`: strip, skip blank and comment lines, tokenize,
dispatch on the lowercased first token.  Only `execute_ask` and
`execute_loop` can fault; every other handler is total. -/
def execute_line (s : State) (line : String) : Except Fault State :=
  if pyStrip line = "" then .ok s
  else if startsWithC (pyStrip line).data ['#'] ∨
      (startsWithC (pyStrip line).data ['$'] ∧
        ¬ startsWithC (lower (pyStrip line)).data "$print".data) then .ok s
  else if (tokenize (pyStrip line)).isEmpty then .ok s
  else if lower ((tokenize (pyStrip line)).getD 0 "") = "print" then
    .ok (execute_print s (tokenize (pyStrip line)))
  else if lower ((tokenize (pyStrip line)).getD 0 "") = "set" then
    .ok (execute_set s (tokenize (pyStrip line)))
  else if lower ((tokenize (pyStrip line)).getD 0 "") = "ask" then
    execute_ask s (tokenize (pyStrip line))
  else if lower ((tokenize (pyStrip line)).getD 0 "") = "loop" then
    execute_loop s (tokenize (pyStrip line))
  else if lower ((tokenize (pyStrip line)).getD 0 "") = "end" ∧
      1 < (tokenize (pyStrip line)).length ∧
      lower ((tokenize (pyStrip line)).getD 1 "") = "loop" then
    .ok (execute_end_loop s)
  else if lower ((tokenize (pyStrip line)).getD 0 "") = "import" then
    .ok (execute_import s (tokenize (pyStrip line)))
  else if lower ((tokenize (pyStrip line)).getD 0 "") = "if" then
    .ok (emit s "If statements are not yet implemented")
  else if lower ((tokenize (pyStrip line)).getD 0 "") = "exit" ∨
      lower ((tokenize (pyStrip line)).getD 0 "") = "quit" then
    .ok { s with running := false }
  else if lower ((tokenize (pyStrip line)).getD 0 "") = "help" then
    .ok (show_help s)
  else
    .ok (emit s ("Error: Unknown command '" ++
      lower ((tokenize (pyStrip line)).getD 0 "") ++ "'"))

/-! ## The program runner (`run_program`) -/

/-- One iteration of `run_program`'s while loop: execute the line at the
cursor, then unconditionally advance the (possibly rewritten) cursor by 1. -/
def step (s : State) : Except Fault State :=
  (execute_line s (s.program_lines.getD s.current_line "")).map
    fun t => { t with current_line := t.current_line + 1 }

/-- The while loop, fuel-bounded: stop when the cursor runs past the last
line or the running flag clears; an uncaught fault aborts the run. -/
def runFuel : Nat → State → Except Fault State
  | 0, s => .ok s
  | n + 1, s =>
      if s.current_line < s.program_lines.length ∧ s.running then
        match step s with
        | .ok t => runFuel n t
        | .error f => .error f
      else .ok s

/-- The state `run_program(program)` starts from on a fresh interpreter, with
`inputs` the available stdin lines. -/
def initState (program : String) (inputs : List String) : State :=
  { vars := init_builtins, running := true,
    program_lines := splitLines (pyStrip program), current_line := 0,
    loop_stack := [], output := [], inputs := inputs }

/-! ## Views used to state concrete-run facts -/

/-- The observable part of a run's outcome: printed lines, loop stack,
cursor, running flag, and the loop variable `i`. -/
def stateView (s : State) : List String × List LoopFrame × Nat × Bool × Option Value :=
  (s.output, s.loop_stack, s.current_line, s.running, envGet s.vars "i")

def runView (e : Except Fault State) :
    Option (List String × List LoopFrame × Nat × Bool × Option Value) :=
  match e with
  | .ok s => some (stateView s)
  | .error _ => none

def cursorView (e : Except Fault State) : Option Nat :=
  match e with
  | .ok s => some s.current_line
  | .error _ => none

def faultView (e : Except Fault State) : Option Fault :=
  match e with
  | .ok _ => none
  | .error f => some f

/-- The loop variable `i` next to the innermost frame's iterator. -/
def iVsTopView (e : Except Fault State) : Option (Option Value × Option Int) :=
  match e with
  | .ok s => some (envGet s.vars "i", s.loop_stack.head?.map LoopFrame.iterator)
  | .error _ => none

/-! ## Semantic views of numeric values -/

/-- The rational number a numeric value denotes (`True`/`False` count 1/0). -/
def numRat : Value → ℚ
  | .int n => n
  | .float f => f.toRat
  | .bool b => if b then 1 else 0
  | _ => 0

/-- An Integer or a Float in the spec's sense (booleans excluded). -/
def isIntOrFloat : Value → Bool
  | .int _ => true
  | .float _ => true
  | _ => false

/-- Well-formedness of a value: the floats the interpreter manufactures all
keep a positive denominator. -/
def valueWF : Value → Prop
  | .float f => 0 < f.den
  | _ => True

/-! ## Concrete programs and states used in the claim theorems -/

/-- The spec's `loop through 1 and 3` scenario with `print $i$` as the
observable one-line body, followed by one line after the loop. -/
def countingLoopProgram : String :=
  "loop through 1 and 3\nprint $i$\nend loop\nprint done"

/-- The smallest program in which an `end loop` jump occurs. -/
def tightLoopProgram : String := "loop through 1 and 2\nend loop"

/-- The spec's nested 2×2 loops, with `print $i$` as the inner body. -/
def nestedLoopProgram : String :=
  "loop through 1 and 2\nloop through 1 and 2\nprint $i$\nend loop\nend loop"

/-- A loop line whose first bound is the built-in function `len`, followed by
a line that should run afterwards. -/
def builtinBoundProgram : String := "loop through len and 3\nprint after"

/-- The run of `tightLoopProgram` paused just before its `end loop` executes
(one step in: the frame ⟨0, 1, 2⟩ is pushed and the cursor is 1). -/
def tightLoopMid : Except Fault State := runFuel 1 (initState tightLoopProgram [])

/-- Execute the line currently under the cursor (without the runner's
increment), for comparing against `step`. -/
def execHere (e : Except Fault State) : Except Fault State :=
  e.bind fun s => execute_line s (s.program_lines.getD s.current_line "")

def stepHere (e : Except Fault State) : Except Fault State := e.bind step

/-- A concrete mid-run state sitting on an `end loop` line with an active
frame, used to instantiate the cursor-advance theorem. -/
def endLoopDemoState : State :=
  { initState tightLoopProgram [] with current_line := 1
                                       loop_stack := [⟨0, 1, 2⟩]
                                       vars := envSet init_builtins "i" (.int 1) }

instance {ε α : Type} [DecidableEq ε] [DecidableEq α] : DecidableEq (Except ε α) :=
  fun a b =>
    match a, b with
    | .ok x, .ok y =>
        if h : x = y then isTrue (by rw [h]) else isFalse fun hc => h (Except.ok.inj hc)
    | .error x, .error y =>
        if h : x = y then isTrue (by rw [h]) else isFalse fun hc => h (Except.error.inj hc)
    | .ok _, .error _ => isFalse fun hc => Except.noConfusion hc
    | .error _, .ok _ => isFalse fun hc => Except.noConfusion hc

/-- Reading back the key just written always yields the written value
(Python dict semantics). -/
theorem envGet_envSet_self (env : List (String × Value)) (k : String) (v : Value) :
    envGet (envSet env k v) k = some v := by
  induction env with
  | nil => simp [envSet, envGet]
  | cons p rest ih =>
      obtain ⟨k0, v0⟩ := p
      by_cases h : k0 = k
      · simp [envSet, envGet, h]
      · simp [envSet, envGet, h, ih]

/-! ## Facts about string interpolation

The scan of `interpGo` is characterized on text of the shape
`pre ++ "$" ++ v ++ "$" ++ post` where `pre` carries no `$` and `v` is a
nonempty identifier: the marker is replaced (bound) or kept (unbound) and the
scan continues after its closing `$`. -/

theorem interpGo_pass (env : List (String × Value)) (post : List Char) :
    ∀ pre : List Char, (∀ c ∈ pre, c ≠ '$') →
      interpGo env (pre ++ post) none = pre ++ interpGo env post none := by
  intro pre
  induction pre with
  | nil => intro _; simp
  | cons c rest ih =>
      intro h
      have hc : c ≠ '$' := h c (by simp)
      simp only [List.cons_append, interpGo, if_neg hc, List.append_eq]
      rw [ih (fun x hx => h x (by simp [hx]))]

theorem interpGo_word_acc (env : List (String × Value)) (post : List Char) :
    ∀ (v acc : List Char), (∀ c ∈ v, wordChar c = true) →
      interpGo env (v ++ post) (some acc) =
        interpGo env post (some (v.reverse ++ acc)) := by
  intro v
  induction v with
  | nil => intro acc _; simp
  | cons c rest ih =>
      intro acc h
      have hw : wordChar c = true := h c (by simp)
      have hc : c ≠ '$' := by
        intro hc
        rw [hc] at hw
        exact absurd hw (by decide)
      simp only [List.cons_append, interpGo, if_neg hc, if_pos hw, List.append_eq]
      rw [ih (c :: acc) (fun x hx => h x (by simp [hx]))]
      simp

theorem interpGo_marker (env : List (String × Value)) (v post : List Char)
    (hv : v ≠ []) (hw : ∀ c ∈ v, wordChar c = true) :
    interpGo env ('$' :: (v ++ '$' :: post)) none =
      (match envGet env (String.mk v) with
       | some val => (valueToString val).data ++ interpGo env post none
       | none => '$' :: v ++ '$' :: interpGo env post none) := by
  have h1 : interpGo env ('$' :: (v ++ '$' :: post)) none =
      interpGo env (v ++ '$' :: post) (some []) := by
    simp [interpGo]
  rw [h1, interpGo_word_acc env ('$' :: post) v [] hw]
  have hne : (v.reverse ++ ([] : List Char)).isEmpty = false := by
    simp [List.isEmpty_iff, hv]
  simp only [interpGo, if_pos rfl, hne, Bool.false_eq_true, if_neg, ite_false]
  simp [hv]

/-! ## The claims -/

/-- Claim C1 (confirmed): for the program `loop through 1 and 3` / body /
`end loop` / next line (body instantiated as `print $i$` to observe each
iteration), the body executes exactly 3 times printing `1`, `2`, `3` — the
iterator values in order — after which the loop frame is popped (the stack is
empty) and execution resumes at the line after `end loop` (printing `done`),
the run ending with the cursor just past the last line. -/
theorem claim1_loop_through_1_and_3 :
    runView (runFuel 40 (initState countingLoopProgram [])) =
      some (["1", "2", "3", "done"], [], 4, true, some (.int 4)) := by decide

/-- Claim C2 counterexample: one step into `tightLoopProgram` the cursor sits
on its `end loop` with the frame ⟨return index 0, iterator 1, end 2⟩ on the
stack.  Executing that line rewrites the cursor to the frame's return index 0,
yet the runner's next step begins at cursor 1, not at the overwritten index:
the increment-by-1 after execution is NOT suppressed, contradicting the
claim. -/
theorem claim2_counterexample :
    runView tightLoopMid = some ([], [⟨0, 1, 2⟩], 1, true, some (.int 1)) ∧
    cursorView (execHere tightLoopMid) = some 0 ∧
    cursorView (stepHere tightLoopMid) = some 1 := by
  exact ⟨by decide, by decide, by decide⟩

/-- Claim C2 amended: in every runner step the cursor advances by exactly 1
after the line executes, with no exception — when the line was an `end loop`
that reset the cursor to the frame's return index, the increment still
applies, so the next step begins at the return index plus 1 (the stored
return index being the `loop` line's own index, that is the first body
line). -/
theorem claim2_cursor_always_advances :
    (∀ s t, execute_line s (s.program_lines.getD s.current_line "") = .ok t →
        step s = .ok { t with current_line := t.current_line + 1 }) ∧
    (∀ s f rest, s.loop_stack = f :: rest → f.iterator + 1 ≤ f.endBound →
        s.program_lines.getD s.current_line "" = "end loop" →
        step s = .ok { s with loop_stack := { f with iterator := f.iterator + 1 } :: rest
                              vars := envSet s.vars "i" (.int (f.iterator + 1))
                              current_line := f.start + 1 }) := by
  constructor
  · intro s t h
    simp only [step]
    rw [h]
    rfl
  · intro s f rest hstack hcont hline
    have hexec : execute_line s "end loop" = .ok (execute_end_loop s) := rfl
    simp only [step, hline, hexec, Except.map]
    simp [execute_end_loop, hstack, if_pos hcont]

/-- Witness for `claim2_cursor_always_advances` at `endLoopDemoState`. -/
theorem claim2_cursor_always_advances_witness :
    step endLoopDemoState =
      .ok { endLoopDemoState with
              loop_stack := [{ (⟨0, 1, 2⟩ : LoopFrame) with iterator := 1 + 1 }]
              vars := envSet endLoopDemoState.vars "i" (.int (1 + 1))
              current_line := 0 + 1 } := by
  exact claim2_cursor_always_advances.2 endLoopDemoState ⟨0, 1, 2⟩ []
    (by decide) (by decide) (by decide)

/-- Claim C10 (confirmed): a `set` whose third token is `to` and that has
exactly two value tokens after it takes neither the single-token branch nor
the (≥ 3)-token operator branch of `execute_set`, so the handler returns with
no assignment and no message: the statement is a silent no-op. -/
theorem claim10_set_two_value_tokens_noop (s : State) (x a b : String) :
    execute_set s ["set", x, "to", a, b] = s := rfl

/-- Claim C3 counterexample: the line `loop through len and 3` — well formed,
but its first bound evaluating to the built-in function `len` — raises a type
fault in `int()` that escapes `execute_line` (nothing catches it in
`run_program`), so the whole run of `builtinBoundProgram` aborts and the
subsequent `print after` line never executes.  Failures during a command's
execution are therefore not always caught at the line-execution boundary. -/
theorem claim3_counterexample :
    faultView (execute_line (initState builtinBoundProgram [])
        "loop through len and 3") = some .intOfBuiltin ∧
    faultView (runFuel 10 (initState builtinBoundProgram [])) = some .intOfBuiltin := by
  exact ⟨by decide, by decide⟩

/-- Claim C3 amended: the safety property fails — executing a line can raise
an unhandled fault that terminates the whole run, with the remaining lines
never executing.  A well-formed `loop` whose bound evaluates to a built-in
function value faults in `int()` (the handler catches only value errors),
`ask` on exhausted stdin faults with end-of-file, and a fault propagates out
of a runner step and aborts the run, which has no handler.  (A further
uncaught-fault source in the host — `set` arithmetic converting an integer of
magnitude at least `2 ^ 1024` to a float, an overflow — lies outside this
model's exact-rational float idealization, so no claim is made here that
other commands never fault.) -/
theorem claim3_unhandled_fault_terminates_run :
    (∀ s t2 t4 b, evaluate_expression s.vars t2 = .builtin b →
        execute_loop s ["loop", "through", t2, "and", t4] = .error .intOfBuiltin) ∧
    (∀ (s : State) (tokens : List String), 3 ≤ tokens.length →
        lower (tokens.getD 1 "") = "for" → s.inputs = [] →
        execute_ask s tokens = .error .endOfInput) ∧
    (∀ (n : Nat) (s : State) (f : Fault), s.running = true →
        s.current_line < s.program_lines.length → step s = .error f →
        runFuel (n + 1) s = .error f) ∧
    faultView (runFuel 10 (initState "ask for x\nprint after" [])) = some .endOfInput := by
  refine ⟨?_, ?_, ?_, by decide⟩
  · intro s t2 t4 b h
    have hshape : execute_loop s ["loop", "through", t2, "and", t4] =
        (match pyIntOf (evaluate_expression s.vars t2) with
         | .typeFault => .error .intOfBuiltin
         | .valueError => .ok (emit s ("Error: Loop bounds must be integers, got " ++
             t2 ++ " and " ++ t4))
         | .ok startV =>
             match pyIntOf (evaluate_expression s.vars t4) with
             | .typeFault => .error .intOfBuiltin
             | .valueError => .ok (emit s ("Error: Loop bounds must be integers, got " ++
                 t2 ++ " and " ++ t4))
             | .ok endV =>
                 .ok { s with
                   loop_stack := ⟨s.current_line, startV, endV⟩ :: s.loop_stack
                   vars := envSet s.vars "i" (.int startV) }) := rfl
    rw [hshape, h]
    rfl
  · intro s tokens hlen hfor hin
    have hcond : ¬ (tokens.length < 3 ∨ lower (tokens.getD 1 "") ≠ "for") := by
      push_neg
      exact ⟨by omega, hfor⟩
    unfold execute_ask
    rw [if_neg hcond, hin]
  · intro n s f hrun hlt hstep
    have hshape : runFuel (n + 1) s =
        (if s.current_line < s.program_lines.length ∧ s.running then
          match step s with
          | .ok t => runFuel n t
          | .error f => .error f
        else .ok s) := rfl
    rw [hshape, if_pos ⟨hlt, hrun⟩, hstep]

/-- Witness for `claim3_unhandled_fault_terminates_run`: the loop handler
faults on the built-in bound `len`, the ask handler faults on empty stdin,
and the faulting first step aborts the whole run of `builtinBoundProgram`. -/
theorem claim3_unhandled_fault_terminates_run_witness :
    execute_loop (initState "" []) ["loop", "through", "len", "and", "3"] =
      .error .intOfBuiltin ∧
    execute_ask (initState "" []) ["ask", "for", "x"] = .error .endOfInput ∧
    runFuel 10 (initState builtinBoundProgram []) = .error .intOfBuiltin := by
  refine ⟨?_, ?_, ?_⟩
  · exact claim3_unhandled_fault_terminates_run.1 (initState "" []) "len" "3" "len"
      (by decide)
  · exact claim3_unhandled_fault_terminates_run.2.1 (initState "" []) ["ask", "for", "x"]
      (by decide) (by decide) rfl
  · exact claim3_unhandled_fault_terminates_run.2.2.1 9 (initState builtinBoundProgram [])
      .intOfBuiltin (by decide) (by decide) (by decide)

/-- Claim C6 counterexample: in `set x to true plus 1` the left operand
evaluates to the Boolean `True`, which is not an Integer or a Float — yet no
type error is reported and the assignment is not aborted: Python's
`isinstance(·, (int, float))` accepts booleans (`bool` subclasses `int`), so
`x` is assigned `True + 1 = 2` silently. -/
theorem claim6_counterexample :
    execute_set (initState "" []) ["set", "x", "to", "true", "plus", "1"] =
      { initState "" [] with vars := envSet init_builtins "x" (.int 2) } := by decide

/-- Claim C7 counterexample: in `loop through 1.5 and 3` the first bound
evaluates to the Float 1.5, which is not an integer — yet no error is
reported and the loop IS entered: `int(1.5)` truncates to 1, a frame with
iterator 1 and end 3 is pushed at return index 0, and `i` is set to 1,
with no output produced. -/
theorem claim7_counterexample :
    execute_loop (initState "" []) ["loop", "through", "1.5", "and", "3"] =
      .ok { initState "" [] with loop_stack := [⟨0, 1, 3⟩]
                                 vars := envSet init_builtins "i" (.int 1) } := by decide

/-- Claim C8 counterexample: running `nestedLoopProgram` for 6 steps — just
after the inner loop's final `end loop` pops its frame — leaves the global
`i` at 3 (the inner loop's exit value) while the innermost active frame (the
outer loop's) still has iterator 1: `i` does not always reflect the iterator
of the innermost active loop frame after the inner loop starts. -/
theorem claim8_counterexample :
    iVsTopView (runFuel 6 (initState nestedLoopProgram [])) =
      some (some (.int 3), some 1) := by decide

/-- Claim C8 amended: the inner body executes exactly 4 times (printing the
inner iterator values 1, 2, 1, 2), and whenever a body line is about to
execute, `i` equals the innermost active frame's iterator (checked before
each of the four body steps, i.e. after 2, 4, 8 and 10 steps); but in the
window right after the inner frame is popped, `i` holds the inner loop's
exit value `end + 1 = 3` until the outer `end loop` overwrites it. -/
theorem claim8_nested_loops :
    runView (runFuel 20 (initState nestedLoopProgram [])) =
      some (["1", "2", "1", "2"], [], 5, true, some (.int 3)) ∧
    iVsTopView (runFuel 2 (initState nestedLoopProgram [])) = some (some (.int 1), some 1) ∧
    iVsTopView (runFuel 4 (initState nestedLoopProgram [])) = some (some (.int 2), some 2) ∧
    iVsTopView (runFuel 8 (initState nestedLoopProgram [])) = some (some (.int 1), some 1) ∧
    iVsTopView (runFuel 10 (initState nestedLoopProgram [])) = some (some (.int 2), some 2) := by
  exact ⟨by decide, by decide, by decide, by decide, by decide⟩

theorem PyFloat.toRat_add (a b : PyFloat) (ha : a.den ≠ 0) (hb : b.den ≠ 0) :
    (a.add b).toRat = a.toRat + b.toRat := by
  rcases a with ⟨an, ad⟩
  rcases b with ⟨bn, bd⟩
  simp only [PyFloat.add, PyFloat.toRat] at *
  have had : (ad : ℚ) ≠ 0 := Int.cast_ne_zero.mpr ha
  have hbd : (bd : ℚ) ≠ 0 := Int.cast_ne_zero.mpr hb
  field_simp

theorem isIntOrFloat_isNumericPy {v : Value} (h : isIntOrFloat v = true) :
    isNumericPy v = true := by
  cases v <;> simp_all [isIntOrFloat, isNumericPy]

/-- Claim C4 (confirmed): for `set X to A plus B` with both operands
evaluating to numeric values (Integer or Float), `X` is assigned a value
denoting exactly the sum of the operands, and the result is a Float exactly
when either operand is a Float — hence an Integer when both are Integers.
(The `valueWF` hypotheses record that float operands have positive
denominators, as every float the interpreter manufactures does.) -/
theorem claim4_set_plus_adds (s : State) (X A B : String) (va vb : Value)
    (hA : evaluate_expression s.vars A = va) (hB : evaluate_expression s.vars B = vb)
    (hva : isIntOrFloat va = true) (hvb : isIntOrFloat vb = true)
    (hwa : valueWF va) (hwb : valueWF vb) :
    ∃ r, envGet (execute_set s ["set", X, "to", A, "plus", B]).vars X = some r ∧
      numRat r = numRat va + numRat vb ∧
      isFloatV r = (isFloatV va || isFloatV vb) ∧
      (isFloatV r = false → ∃ n : Int, r = .int n) := by
  have hshape : execute_set s ["set", X, "to", A, "plus", B] =
      (if ¬ (isNumericPy (evaluate_expression s.vars A) = true ∧
             isNumericPy (evaluate_expression s.vars B) = true) then
        emit s ("Error: Cannot perform math operations on non-numeric values: " ++
          valueToString (evaluate_expression s.vars A) ++ " and " ++
          valueToString (evaluate_expression s.vars B))
      else { s with vars := envSet s.vars X (valueAdd (evaluate_expression s.vars A) (evaluate_expression s.vars B)) }) := rfl
  rw [hshape, hA, hB,
    if_neg (by simp [isIntOrFloat_isNumericPy hva, isIntOrFloat_isNumericPy hvb])]
  refine ⟨valueAdd va vb, envGet_envSet_self s.vars X (valueAdd va vb), ?_, ?_, ?_⟩
  · cases va with
    | int a =>
        cases vb with
        | int b2 =>
            show ((a + b2 : Int) : ℚ) = ((a : Int) : ℚ) + ((b2 : Int) : ℚ)
            push_cast
            ring
        | float fb =>
            have hden : fb.den ≠ 0 := by
              simp only [valueWF] at hwb
              omega
            show (PyFloat.add ⟨a, 1⟩ fb).toRat = ((a : Int) : ℚ) + fb.toRat
            rw [PyFloat.toRat_add ⟨a, 1⟩ fb (by norm_num) hden]
            simp [PyFloat.toRat]
        | str _ => simp [isIntOrFloat] at hvb
        | bool _ => simp [isIntOrFloat] at hvb
        | builtin _ => simp [isIntOrFloat] at hvb
    | float fa =>
        have hdena : fa.den ≠ 0 := by
          simp only [valueWF] at hwa
          omega
        cases vb with
        | int b2 =>
            show (PyFloat.add fa ⟨b2, 1⟩).toRat = fa.toRat + ((b2 : Int) : ℚ)
            rw [PyFloat.toRat_add fa ⟨b2, 1⟩ hdena (by norm_num)]
            simp [PyFloat.toRat]
        | float fb =>
            have hdenb : fb.den ≠ 0 := by
              simp only [valueWF] at hwb
              omega
            show (PyFloat.add fa fb).toRat = fa.toRat + fb.toRat
            exact PyFloat.toRat_add fa fb hdena hdenb
        | str _ => simp [isIntOrFloat] at hvb
        | bool _ => simp [isIntOrFloat] at hvb
        | builtin _ => simp [isIntOrFloat] at hvb
    | str _ => simp [isIntOrFloat] at hva
    | bool _ => simp [isIntOrFloat] at hva
    | builtin _ => simp [isIntOrFloat] at hva
  · cases va <;> cases vb <;> simp_all [valueAdd, isFloatV, isIntOrFloat]
  · intro hnf
    cases va <;> cases vb <;> simp_all [valueAdd, isFloatV, isIntOrFloat, intCoerce]

/-- Witness for `claim4_set_plus_adds` at `set x to 2 plus 3`. -/
theorem claim4_set_plus_adds_witness :
    ∃ r, envGet (execute_set (initState "" [])
        ["set", "x", "to", "2", "plus", "3"]).vars "x" = some r ∧
      numRat r = numRat (Value.int 2) + numRat (Value.int 3) ∧
      isFloatV r = (isFloatV (Value.int 2) || isFloatV (Value.int 3)) ∧
      (isFloatV r = false → ∃ n : Int, r = .int n) :=
  claim4_set_plus_adds (initState "" []) "x" "2" "3" (.int 2) (.int 3)
    (by decide) (by decide) (by decide) (by decide) trivial trivial

/-- Claim C5 (confirmed): for `set X to A divided by B` with `A` numeric and
`B` evaluating to zero (integer `0` or float `0.0`), the handler reports
`Error: Division by zero` and returns with the environment untouched — `X`
keeps its prior value or stays unbound, and no fault escapes (`execute_set`
is a total function). -/
theorem claim5_divide_by_zero (s : State) (X A B : String) (va vb : Value)
    (hA : evaluate_expression s.vars A = va) (hB : evaluate_expression s.vars B = vb)
    (hva : isIntOrFloat va = true)
    (hzb : vb = .int 0 ∨ ∃ f : PyFloat, vb = .float f ∧ f.num = 0) :
    execute_set s ["set", X, "to", A, "divided", "by", B] =
      emit s "Error: Division by zero" := by
  have hshape : execute_set s ["set", X, "to", A, "divided", "by", B] =
      (if ¬ (isNumericPy (evaluate_expression s.vars A) = true ∧
             isNumericPy (evaluate_expression s.vars B) = true) then
        emit s ("Error: Cannot perform division on non-numeric values: " ++
          valueToString (evaluate_expression s.vars A) ++ " and " ++
          valueToString (evaluate_expression s.vars B))
      else if isZeroPy (evaluate_expression s.vars B) = true then
        emit s "Error: Division by zero"
      else { s with vars := envSet s.vars X (valueDiv (evaluate_expression s.vars A) (evaluate_expression s.vars B)) }) := rfl
  have hnb : isNumericPy vb = true := by
    rcases hzb with h | ⟨f, h, _⟩ <;> rw [h] <;> rfl
  have hzb' : isZeroPy vb = true := by
    rcases hzb with h | ⟨f, h, hn⟩
    · rw [h]; rfl
    · rw [h]; simp [isZeroPy, hn]
  rw [hshape, hA, hB, if_neg (by simp [isIntOrFloat_isNumericPy hva, hnb]), if_pos hzb']

/-- Witness for `claim5_divide_by_zero` at `set x to 1 divided by 0`. -/
theorem claim5_divide_by_zero_witness :
    execute_set (initState "" []) ["set", "x", "to", "1", "divided", "by", "0"] =
      emit (initState "" []) "Error: Division by zero" :=
  claim5_divide_by_zero (initState "" []) "x" "1" "0" (.int 1) (.int 0)
    (by decide) (by decide) (by decide) (Or.inl rfl)

/-- Claim C6 amended: in both operator forms of `set` — the three-token
`left OP right` form and the four-token `left divided by right` form — an
operand that is a String or a built-in-function value (anything failing
Python's `isinstance(·, (int, float))`) is rejected with a type error and
the assignment is aborted, the target variable keeping its prior value or
staying unbound — but a Boolean operand is NOT rejected: Python's `bool`
subclasses `int`, so booleans pass the numeric guard and are computed with
as 1/0 (see `claim6_counterexample`). -/
theorem claim6_set_op_rejects_nonnumeric :
    (∀ (s : State) (X A op B : String), lower op ≠ "divided" →
        isNumericPy (evaluate_expression s.vars A) = false ∨
          isNumericPy (evaluate_expression s.vars B) = false →
        execute_set s ["set", X, "to", A, op, B] =
          emit s ("Error: Cannot perform math operations on non-numeric values: " ++
            valueToString (evaluate_expression s.vars A) ++ " and " ++
            valueToString (evaluate_expression s.vars B))) ∧
    (∀ (s : State) (X A B : String),
        isNumericPy (evaluate_expression s.vars A) = false ∨
          isNumericPy (evaluate_expression s.vars B) = false →
        execute_set s ["set", X, "to", A, "divided", "by", B] =
          emit s ("Error: Cannot perform division on non-numeric values: " ++
            valueToString (evaluate_expression s.vars A) ++ " and " ++
            valueToString (evaluate_expression s.vars B))) := by
  constructor
  · intro s X A op B hop h
    have hshape : execute_set s ["set", X, "to", A, op, B] =
        (if lower op = "divided" ∧ lower B = "by" then
          emit s "Error: Invalid division format. Use 'divided by value'"
        else if ¬ (isNumericPy (evaluate_expression s.vars A) = true ∧
                   isNumericPy (evaluate_expression s.vars B) = true) then
          emit s ("Error: Cannot perform math operations on non-numeric values: " ++
            valueToString (evaluate_expression s.vars A) ++ " and " ++
            valueToString (evaluate_expression s.vars B))
        else if lower op = "plus" then
          { s with vars := envSet s.vars X (valueAdd (evaluate_expression s.vars A) (evaluate_expression s.vars B)) }
        else if lower op = "minus" then
          { s with vars := envSet s.vars X (valueSub (evaluate_expression s.vars A) (evaluate_expression s.vars B)) }
        else if lower op = "times" then
          { s with vars := envSet s.vars X (valueMul (evaluate_expression s.vars A) (evaluate_expression s.vars B)) }
        else emit s ("Error: Unknown operation '" ++ lower op ++ "'")) := rfl
    rw [hshape, if_neg (fun hc => hop hc.1),
      if_pos (by rcases h with h | h <;> simp [h])]
  · intro s X A B h
    have hshape : execute_set s ["set", X, "to", A, "divided", "by", B] =
        (if ¬ (isNumericPy (evaluate_expression s.vars A) = true ∧
               isNumericPy (evaluate_expression s.vars B) = true) then
          emit s ("Error: Cannot perform division on non-numeric values: " ++
            valueToString (evaluate_expression s.vars A) ++ " and " ++
            valueToString (evaluate_expression s.vars B))
        else if isZeroPy (evaluate_expression s.vars B) = true then
          emit s "Error: Division by zero"
        else { s with vars := envSet s.vars X (valueDiv (evaluate_expression s.vars A) (evaluate_expression s.vars B)) }) := rfl
    rw [hshape, if_pos (by rcases h with h | h <;> simp [h])]

/-- Witness for `claim6_set_op_rejects_nonnumeric`: `set x to "a" plus 1`
and `set x to "a" divided by 1` (the left operand evaluates to the
String `a` in both). -/
theorem claim6_set_op_rejects_nonnumeric_witness :
    execute_set (initState "" []) ["set", "x", "to", "\"a\"", "plus", "1"] =
      emit (initState "" [])
        ("Error: Cannot perform math operations on non-numeric values: " ++
          valueToString (evaluate_expression (initState "" []).vars "\"a\"") ++ " and " ++
          valueToString (evaluate_expression (initState "" []).vars "1")) ∧
    execute_set (initState "" []) ["set", "x", "to", "\"a\"", "divided", "by", "1"] =
      emit (initState "" [])
        ("Error: Cannot perform division on non-numeric values: " ++
          valueToString (evaluate_expression (initState "" []).vars "\"a\"") ++ " and " ++
          valueToString (evaluate_expression (initState "" []).vars "1")) := by
  constructor
  · exact claim6_set_op_rejects_nonnumeric.1 (initState "" []) "x" "\"a\"" "plus" "1"
      (by decide) (Or.inl (by decide))
  · exact claim6_set_op_rejects_nonnumeric.2 (initState "" []) "x" "\"a\"" "1"
      (Or.inl (by decide))

/-- Claim C7 amended: a `loop through S and E` bound is put through `int()`,
so a Float bound within the host float range (every finite host float has
magnitude below `2 ^ 1024`; the two range hypotheses state exactly that) does
not report an error — it is truncated toward zero and the loop IS entered
(frame pushed, `i` set; see `claim7_counterexample`) — and only a bound whose
conversion raises `ValueError` (a string that is not an integer literal)
reports the error and leaves the loop unentered with `i` untouched.  (A
built-in-function bound instead faults, see claim C3; a literal beyond the
float range, such as `1.0e400`, becomes `inf` in the host and `int(inf)`
raises an uncaught overflow — that lies outside this model's exact-rational
floats, and the range hypotheses exclude the huge rationals such literals
parse to here, so no assertion is made about them.) -/
theorem claim7_loop_bound_conversion (s : State) (t2 t4 : String) :
    (∀ (f : PyFloat) (e : Int), evaluate_expression s.vars t2 = .float f →
        0 < f.den → f.num.natAbs < 2 ^ 1024 * f.den.natAbs →
        evaluate_expression s.vars t4 = .int e →
        execute_loop s ["loop", "through", t2, "and", t4] =
          .ok { s with
            loop_stack := ⟨s.current_line, Int.tdiv f.num f.den, e⟩ :: s.loop_stack
            vars := envSet s.vars "i" (.int (Int.tdiv f.num f.den)) }) ∧
    (∀ c : String, evaluate_expression s.vars t2 = .str c → parsePyInt c = none →
        execute_loop s ["loop", "through", t2, "and", t4] =
          .ok (emit s ("Error: Loop bounds must be integers, got " ++
            t2 ++ " and " ++ t4))) := by
  have hshape : execute_loop s ["loop", "through", t2, "and", t4] =
      (match pyIntOf (evaluate_expression s.vars t2) with
       | .typeFault => .error .intOfBuiltin
       | .valueError => .ok (emit s ("Error: Loop bounds must be integers, got " ++
           t2 ++ " and " ++ t4))
       | .ok startV =>
           match pyIntOf (evaluate_expression s.vars t4) with
           | .typeFault => .error .intOfBuiltin
           | .valueError => .ok (emit s ("Error: Loop bounds must be integers, got " ++
               t2 ++ " and " ++ t4))
           | .ok endV =>
               .ok { s with
                 loop_stack := ⟨s.current_line, startV, endV⟩ :: s.loop_stack
                 vars := envSet s.vars "i" (.int startV) }) := rfl
  constructor
  · intro f e hf _hwf _hrange he
    rw [hshape, hf, he]
    rfl
  · intro c hc hpc
    rw [hshape, hc]
    simp only [pyIntOf]
    rw [hpc]

/-- Witness for `claim7_loop_bound_conversion`: the Float-bound case at
`loop through 1.5 and 3` (1.5 is ⟨15, 10⟩ and truncates to 1) and the
string-bound case at `loop through abc and 3`. -/
theorem claim7_loop_bound_conversion_witness :
    execute_loop (initState "" []) ["loop", "through", "1.5", "and", "3"] =
      .ok { initState "" [] with
        loop_stack := ⟨0, Int.tdiv 15 10, 3⟩ :: (initState "" []).loop_stack
        vars := envSet (initState "" []).vars "i" (.int (Int.tdiv 15 10)) } ∧
    execute_loop (initState "" []) ["loop", "through", "abc", "and", "3"] =
      .ok (emit (initState "" [])
        ("Error: Loop bounds must be integers, got " ++ "abc" ++ " and " ++ "3")) := by
  constructor
  · exact (claim7_loop_bound_conversion (initState "" []) "1.5" "3").1 ⟨15, 10⟩ 3
      (by decide) (by decide) (by norm_num) (by decide)
  · exact (claim7_loop_bound_conversion (initState "" []) "abc" "3").2 "abc"
      (by decide) (by decide)

/-- Claim C9 (confirmed): string interpolation replaces an occurrence of
`$identifier$` (identifier = one or more ASCII letters, digits or
underscores) with the stringified current value of that variable when bound,
and leaves the `$identifier$` text unchanged, without error, when unbound —
scanning then continues after the closing `$`, so by induction every
occurrence is treated this way.  In particular `print $name$` outputs `Ada`
when `name` is bound to the string `Ada`, and the literal text `$name$` when
`name` is unbound. -/
theorem claim9_interpolation :
    (∀ (env : List (String × Value)) (pre v post : String),
        (∀ c ∈ pre.data, c ≠ '$') → v ≠ "" → (∀ c ∈ v.data, wordChar c = true) →
        process_string_interpolation env (pre ++ "$" ++ v ++ "$" ++ post) =
          pre ++ (match envGet env v with
                  | some val => valueToString val
                  | none => "$" ++ v ++ "$") ++ process_string_interpolation env post) ∧
    runView (runFuel 10 (initState "set name to \"Ada\"\nprint $name$" [])) =
      some (["Ada"], [], 2, true, none) ∧
    runView (runFuel 10 (initState "print $name$" [])) =
      some (["$name$"], [], 1, true, none) := by
  refine ⟨?_, by decide, by decide⟩
  intro env pre v post hpre hv hw
  have hvdata : v.data ≠ [] := by
    intro hc
    apply hv
    rw [show v = String.mk v.data from rfl, hc]
  have hdata : (pre ++ "$" ++ v ++ "$" ++ post).data =
      pre.data ++ ('$' :: (v.data ++ '$' :: post.data)) := by
    simp [String.data_append]
  have hrun : interpGo env (pre ++ "$" ++ v ++ "$" ++ post).data none =
      pre.data ++ (match envGet env v with
        | some val => (valueToString val).data ++ interpGo env post.data none
        | none => '$' :: v.data ++ '$' :: interpGo env post.data none) := by
    rw [hdata, interpGo_pass env _ pre.data hpre,
      interpGo_marker env v.data post.data hvdata hw]
  cases henv : envGet env v with
  | some val =>
      rw [henv] at hrun
      have hR : (pre ++ valueToString val ++ process_string_interpolation env post).data =
          pre.data ++ ((valueToString val).data ++ interpGo env post.data none) := by
        simp [String.data_append, process_string_interpolation]
      exact (congrArg String.mk (hrun.trans hR.symm) :
        String.mk (interpGo env (pre ++ "$" ++ v ++ "$" ++ post).data none) = _)
  | none =>
      rw [henv] at hrun
      have hR : (pre ++ ("$" ++ v ++ "$") ++ process_string_interpolation env post).data =
          pre.data ++ ('$' :: v.data ++ '$' :: interpGo env post.data none) := by
        simp [String.data_append, process_string_interpolation]
      exact (congrArg String.mk (hrun.trans hR.symm) :
        String.mk (interpGo env (pre ++ "$" ++ v ++ "$" ++ post).data none) = _)

/-- Witness for `claim9_interpolation`: the marker `$x$` between `a: ` and
`!`, with `x` bound to the integer 5. -/
theorem claim9_interpolation_witness :
    process_string_interpolation [("x", .int 5)] ("a: " ++ "$" ++ "x" ++ "$" ++ "!") =
      "a: " ++ (match envGet [("x", .int 5)] "x" with
                | some val => valueToString val
                | none => "$" ++ "x" ++ "$") ++
        process_string_interpolation [("x", .int 5)] "!" :=
  claim9_interpolation.1 [("x", .int 5)] "a: " "x" "!"
    (by decide) (by decide) (by decide)

end SudoSharp
